import Mathlib

/-!
Shallow embedding of the nuanz-insights repository (two Python source files:
`portfolio_pl_calculator.py` and `simple_api_server.py`).  Monetary amounts,
prices and scores are modelled as exact rationals (`ℚ`); Python `None` / the
`"TOKEN_EXPIRED"` marker become constructors of an explicit quote type; the
network-dependent price fetchers are parameters of the aggregator.
-/

/-- Python substring test helper: does `hay` start with `needle`?
(`str.__contains__` reduces to a scan of such checks). -/
def listStartsWith : List Char → List Char → Bool
  | [], _ => true
  | _ :: _, [] => false
  | a :: as, b :: bs => a == b && listStartsWith as bs

/-- Scan of `listStartsWith` at every suffix: `needle` occurs inside `hay`. -/
def listHasSub (needle : List Char) : List Char → Bool
  | [] => listStartsWith needle []
  | c :: rest => listStartsWith needle (c :: rest) || listHasSub needle rest

/-- Python `needle in hay` on strings (substring containment). -/
def strContains (hay needle : String) : Bool :=
  listHasSub needle.data hay.data

/-- ASCII case folding of one character. -/
def pyCharLower (c : Char) : Char :=
  if 65 ≤ c.toNat ∧ c.toNat ≤ 90 then Char.ofNat (c.toNat + 32) else c

/-- Python `str.lower()` on the ASCII range.  Every string this repository
lowercases is ASCII, where `String.toLower` agrees character for character;
this List-based form is used because `String.toLower`'s byte-position
recursion does not reduce in the kernel. -/
def pyLower (s : String) : String :=
  ⟨s.data.map pyCharLower⟩

/-- Round-half-to-even on rationals, the rounding mode of Python `round`. -/
def roundHalfEven (x : ℚ) : ℤ :=
  if x - ⌊x⌋ < 1/2 then ⌊x⌋
  else if 1/2 < x - ⌊x⌋ then ⌊x⌋ + 1
  else if ⌊x⌋ % 2 = 0 then ⌊x⌋ else ⌊x⌋ + 1

/-- Python `round(x, 2)` idealised over exact rationals. -/
def pyRound2 (x : ℚ) : ℚ := (roundHalfEven (x * 100) : ℚ) / 100

/-- Python `round(x, 4)` idealised over exact rationals. -/
def pyRound4 (x : ℚ) : ℚ := (roundHalfEven (x * 10000) : ℚ) / 10000

/-! ## portfolio_pl_calculator.py -/

/-- One row of the loaded holdings table (`load_portfolio_data`, lines 46-54). -/
structure Holding where
  instrument : String
  quantity : ℚ
  avg_cost : ℚ
  invested : ℚ
  current_value : ℚ
  assetClass : String
  sector : String
deriving DecidableEq

/-- Outcome of a price fetch: a numeric price, the `"TOKEN_EXPIRED"` marker
returned by `get_upstox_stock_price` on HTTP 401, or `None`. -/
inductive PriceQuote where
  | price (p : ℚ)
  | tokenExpired
  | unavailable
deriving DecidableEq

/-- The part of the Upstox LTP HTTP response that `get_upstox_stock_price`
inspects: the status code, whether the JSON body has `status == 'success'`
and a `'data'` key, and the keyed entries of `data` (an entry carries
`some p` when it is truthy and exposes a `last_price` field `p`). -/
structure UpstoxResponse where
  status_code : ℕ
  status_success : Bool
  has_data : Bool
  entries : List (String × Option ℚ)

/-- The `for key, price_data in data['data'].items()` loop (lines 99-103):
return the first entry exposing a `last_price`, skipping the rest. -/
def firstLastPrice : List (String × Option ℚ) → Option ℚ
  | [] => none
  | (_, some p) :: _ => some p
  | (_, none) :: rest => firstLastPrice rest

/-- `get_upstox_stock_price` (lines 64-114) as a function of the HTTP
response: on a 200 success body, the first `last_price` found is returned;
otherwise status 401 yields the `TOKEN_EXPIRED` marker and anything else
yields `None`.  (Transport exceptions, also mapped to `None` by the
`except` clause, are outside the response model.) -/
def get_upstox_stock_price (resp : UpstoxResponse) : PriceQuote :=
  match (if resp.status_code = 200 ∧ resp.status_success = true ∧ resp.has_data = true
         then firstLastPrice resp.entries else none) with
  | some p => PriceQuote.price p
  | none => if resp.status_code = 401 then PriceQuote.tokenExpired else PriceQuote.unavailable

/-- The per-holding price dispatch of `calculate_portfolio_pl` (lines
173-180): equities go to the stock fetcher, instruments whose lowercased
name contains "fund" or "mutual" go to the NAV fetcher, anything else
keeps `current_price = None`. -/
def resolveQuote (stockPrice : String → PriceQuote) (mfNav : String → Option ℚ)
    (h : Holding) : PriceQuote :=
  if h.assetClass == "Equity" then stockPrice h.instrument
  else if strContains (pyLower h.instrument) "fund" || strContains (pyLower h.instrument) "mutual" then
    match mfNav h.instrument with
    | some nav => PriceQuote.price nav
    | none => PriceQuote.unavailable
  else PriceQuote.unavailable

/-- One entry of `pl_details` (lines 187-194 and 204-211); `current_price`
is `some p` for a live price and `none` for the `'API_FAILED'` marker. -/
structure PLLine where
  instrument : String
  invested : ℚ
  current_value : ℚ
  pl_amount : ℚ
  pl_percentage : ℚ
  current_price : Option ℚ
deriving DecidableEq

/-- The fallback branch (lines 198-211): value the line at the stale
loaded `current_value` and mark the price as failed. -/
def fallbackLine (h : Holding) : PLLine :=
  { instrument := h.instrument
    invested := h.invested
    current_value := h.current_value
    pl_amount := h.current_value - h.invested
    pl_percentage := if 0 < h.invested
      then (h.current_value - h.invested) / h.invested * 100 else 0
    current_price := none }

/-- The per-holding body of `calculate_portfolio_pl` (lines 167-211).  The
Python guard `current_price and isinstance(current_price, (int, float)) and
current_price > 0` holds exactly for a numeric quote `> 0`: the
`"TOKEN_EXPIRED"` string fails `isinstance`, `None` and `0` are falsy, and
a negative number fails `> 0`. -/
def processHolding (stockPrice : String → PriceQuote) (mfNav : String → Option ℚ)
    (h : Holding) : PLLine :=
  match resolveQuote stockPrice mfNav h with
  | PriceQuote.price p =>
    if 0 < p then
      { instrument := h.instrument
        invested := h.invested
        current_value := h.quantity * p
        pl_amount := h.quantity * p - h.invested
        pl_percentage := if 0 < h.invested
          then (h.quantity * p - h.invested) / h.invested * 100 else 0
        current_price := some p }
    else fallbackLine h
  | PriceQuote.tokenExpired => fallbackLine h
  | PriceQuote.unavailable => fallbackLine h

/-- The aggregate result of `calculate_portfolio_pl` (lines 217-224). -/
structure PLResult where
  total_invested : ℚ
  total_current_value : ℚ
  total_pl : ℚ
  total_pl_percentage : ℚ
  details : List PLLine
deriving DecidableEq

/-- `calculate_portfolio_pl` (lines 160-224).  The loop accumulates
`total_invested` and `total_current_value` with, in each branch, exactly
the values written into the emitted line, so the running sums are the sums
over the emitted lines. -/
def calculate_portfolio_pl (stockPrice : String → PriceQuote) (mfNav : String → Option ℚ)
    (holdings : List Holding) : PLResult :=
  let details := holdings.map (processHolding stockPrice mfNav)
  let total_invested := (details.map PLLine.invested).sum
  let total_current_value := (details.map PLLine.current_value).sum
  let total_pl := total_current_value - total_invested
  { total_invested := total_invested
    total_current_value := total_current_value
    total_pl := total_pl
    total_pl_percentage := if 0 < total_invested then total_pl / total_invested * 100 else 0
    details := details }

/-! ## simple_api_server.py: sentiment heuristic -/

/-- Keyword tiers of `analyze_with_finbert_simulation` (lines 29-35). -/
def strong_positive : List String :=
  ["exceptional", "stellar", "outperform", "breakthrough", "surge", "exceeding", "robust", "superior"]

/-- Tier `positive` (line 30). -/
def positive : List String :=
  ["strong", "growth", "increase", "gain", "rising", "improved", "bullish", "optimistic", "momentum"]

/-- Tier `moderate_positive` (line 31). -/
def moderate_positive : List String :=
  ["steady", "stable", "recovering", "upbeat", "favorable", "encouraging"]

/-- Tier `strong_negative` (line 33). -/
def strong_negative : List String :=
  ["crisis", "collapse", "plunge", "devastating", "catastrophic", "severe", "alarming"]

/-- Tier `negative` (line 34). -/
def negative : List String :=
  ["decline", "fall", "loss", "weak", "pressure", "risk", "concern", "disappointing", "bearish"]

/-- Tier `moderate_negative` (line 35). -/
def moderate_negative : List String :=
  ["uncertain", "volatile", "challenge", "cautious", "mixed", "sluggish"]

/-- `financial_context` map (lines 38-42); the weights are carried but the
boost below adds a flat 0.05 per matching key, exactly as the source does. -/
def financial_context : List (String × ℚ) :=
  [("etf", 0.1), ("fund", 0.1), ("investment", 0.1), ("portfolio", 0.1),
   ("quarterly", 0.15), ("earnings", 0.15), ("revenue", 0.15), ("production", 0.15),
   ("market", 0.1), ("sector", 0.1), ("industry", 0.1), ("economic", 0.1)]

/-- `sum(1 for word in ws if word in text_lower)` (lines 47-53). -/
def countHits (ws : List String) (text_lower : String) : ℕ :=
  (ws.filter (fun w => strContains text_lower w)).length

/-- `context_boost = sum(0.05 for word, weight in financial_context.items()
if word in text_lower)` (line 56). -/
def context_boost_of (text_lower : String) : ℚ :=
  ((financial_context.filter (fun kv => strContains text_lower kv.1)).map
    (fun _ => (0.05 : ℚ))).sum

/-- `positive_score` before the percentage bonus (line 59). -/
def base_positive_score (text_lower : String) : ℚ :=
  (countHits strong_positive text_lower : ℚ) * 0.3 + (countHits positive text_lower : ℚ) * 0.2
    + (countHits moderate_positive text_lower : ℚ) * 0.1 + context_boost_of text_lower

/-- `negative_score` (line 60). -/
def base_negative_score (text_lower : String) : ℚ :=
  (countHits strong_negative text_lower : ℚ) * 0.3 + (countHits negative text_lower : ℚ) * 0.2
    + (countHits moderate_negative text_lower : ℚ) * 0.1

/-- Greedy run of decimal digits at the head of the character list. -/
def takeDigits : List Char → List Char × List Char
  | [] => ([], [])
  | c :: rest =>
    if c.isDigit then
      let (ds, r) := takeDigits rest
      (c :: ds, r)
    else ([], c :: rest)

/-- The whitespace class of Python's regex `\s` restricted to ASCII. -/
def isPySpace (c : Char) : Bool :=
  c == ' ' || c == '\t' || c == '\n' || c == '\r' || c == '\x0b' || c == '\x0c'

/-- Drop leading regex-`\s*` whitespace. -/
def skipSpaces : List Char → List Char
  | [] => []
  | c :: rest => if isPySpace c then skipSpaces rest else c :: rest

/-- Numeric value of a digit run. -/
def digitsToNat (ds : List Char) : ℕ :=
  ds.foldl (fun acc c => 10 * acc + (c.toNat - 48)) 0

/-- One attempt to match the regex `(\d+(?:\.\d+)?)\s*%` (line 63) at the
head of the list: greedy digits, an optional fraction, optional whitespace,
then a percent sign; yields the captured value and the remaining input. -/
def matchPct (l : List Char) : Option (ℚ × List Char) :=
  let (ds, r1) := takeDigits l
  if ds.isEmpty then none
  else
    let (fs, r2) :=
      match r1 with
      | '.' :: r =>
        let (fs2, rr) := takeDigits r
        if fs2.isEmpty then ([], r1) else (fs2, rr)
      | _ => ([], r1)
    match skipSpaces r2 with
    | '%' :: r4 => some ((digitsToNat ds : ℚ) + (digitsToNat fs : ℚ) / 10 ^ fs.length, r4)
    | _ => none

/-- `re.findall` scan: try a match at every position, non-overlapping on
success.  The fuel starts at the input length, which every step consumes
at least one of, so it never runs out before the input does. -/
def findPctAux : ℕ → List Char → List ℚ
  | 0, _ => []
  | _, [] => []
  | fuel + 1, c :: rest =>
    match matchPct (c :: rest) with
    | some (v, remaining) => v :: findPctAux fuel remaining
    | none => findPctAux fuel rest

/-- `percentages = re.findall(r'(\d+(?:\.\d+)?)\s*%', text)` (line 63),
already converted to numbers as lines 64-65 do with `float`. -/
def findPercentages (text : String) : List ℚ :=
  findPctAux text.data.length text.data

/-- Lines 64-67: the percentage bonus applies when matches exist and their
average exceeds 10. -/
def pctBonus (text : String) : Bool :=
  let ps := findPercentages text
  decide (ps ≠ [] ∧ 10 < ps.sum / (ps.length : ℚ))

/-- `positive_score` after the conditional `+= 0.2` of line 67. -/
def positive_score_of (text : String) : ℚ :=
  if pctBonus text then base_positive_score (pyLower text) + 0.2
  else base_positive_score (pyLower text)

/-- Return value of `analyze_with_finbert_simulation` (lines 94-103); the
three `scores` entries are the positive/negative/neutral fields. -/
structure SentimentResult where
  sentiment : String
  confidence : ℚ
  score_positive : ℚ
  score_negative : ℚ
  score_neutral : ℚ
  method : String
deriving DecidableEq

/-- The `positive` branch (lines 72-77) assembled into the return dict,
with the rounding and clamping of lines 92-101. -/
def mkPositive (raw_confidence : ℚ) : SentimentResult :=
  { sentiment := "positive"
    confidence := pyRound4 (min (max raw_confidence 0.6) 0.95)
    score_positive := pyRound4 raw_confidence
    score_negative := pyRound4 ((1 - raw_confidence) * 0.3)
    score_neutral := pyRound4 ((1 - raw_confidence) * 0.7)
    method := "finbert_local" }

/-- The `negative` branch (lines 78-83). -/
def mkNegative (raw_confidence : ℚ) : SentimentResult :=
  { sentiment := "negative"
    confidence := pyRound4 (min (max raw_confidence 0.6) 0.95)
    score_positive := pyRound4 ((1 - raw_confidence) * 0.3)
    score_negative := pyRound4 raw_confidence
    score_neutral := pyRound4 ((1 - raw_confidence) * 0.7)
    method := "finbert_local" }

/-- The `neutral` branch (lines 84-89). -/
def mkNeutral (raw_confidence : ℚ) : SentimentResult :=
  { sentiment := "neutral"
    confidence := pyRound4 (min (max raw_confidence 0.6) 0.95)
    score_positive := pyRound4 ((1 - raw_confidence) * 0.5)
    score_negative := pyRound4 ((1 - raw_confidence) * 0.5)
    score_neutral := pyRound4 raw_confidence
    method := "finbert_local" }

/-- `analyze_with_finbert_simulation` (lines 21-103). -/
def analyze_with_finbert_simulation (text : String) : SentimentResult :=
  if positive_score_of text > base_negative_score (pyLower text) then
    mkPositive (0.75 + min (positive_score_of text * 0.1) 0.2)
  else if base_negative_score (pyLower text) > positive_score_of text then
    mkNegative (0.75 + min (base_negative_score (pyLower text) * 0.1) 0.2)
  else
    mkNeutral (0.65 + context_boost_of (pyLower text))

/-- The GOLD1 news string fed to the scorer by `get_portfolio_sentiment`
(line 151). -/
def gold1_news : String :=
  "Gold ETF experiences strong institutional inflows as central bank policies drive safe haven demand amid global economic uncertainty and inflation hedging strategies"

/-! ## simple_api_server.py: risk heuristics -/

/-- One row of the hard-coded `portfolio_data` table of
`get_portfolio_risks` (lines 249-254). -/
structure RiskHolding where
  instrument : String
  current_value : ℚ
  assetClass : String
  sector : String
deriving DecidableEq

/-- `d[key] = d.get(key, 0) + value` on an insertion-ordered dict
modelled as an association list (lines 259-262 and 270-273). -/
def upsertAdd (k : String) (v : ℚ) : List (String × ℚ) → List (String × ℚ)
  | [] => [(k, v)]
  | (k2, v2) :: rest => if k2 == k then (k2, v2 + v) :: rest else (k2, v2) :: upsertAdd k v rest

/-- Accumulate `current_value` per key over the holdings, keeping the
dict's insertion order. -/
def groupValuesBy (key : RiskHolding → String) (pd : List RiskHolding) : List (String × ℚ) :=
  pd.foldl (fun acc h => upsertAdd (key h) h.current_value acc) []

/-- `total_value = sum(holding['current_value'] for holding in portfolio_data)`
(line 256). -/
def totalValueOf (pd : List RiskHolding) : ℚ :=
  (pd.map RiskHolding.current_value).sum

/-- `{k: v / total_value * 100 for k, v in values.items()}` (lines 264-267
and 275-278). -/
def pctListOf (vals : List (String × ℚ)) (total : ℚ) : List (String × ℚ) :=
  vals.map (fun kv => (kv.1, kv.2 / total * 100))

/-- `dict.get(k, d)` on the association list. -/
def lookupD (k : String) : List (String × ℚ) → ℚ → ℚ
  | [], d => d
  | kv :: rest, d => if kv.1 == k then kv.2 else lookupD k rest d

/-- `asset_class_percentages` (lines 259-267). -/
def asset_class_percentages (pd : List RiskHolding) : List (String × ℚ) :=
  pctListOf (groupValuesBy RiskHolding.assetClass pd) (totalValueOf pd)

/-- `sector_percentages` (lines 270-278). -/
def sector_percentages (pd : List RiskHolding) : List (String × ℚ) :=
  pctListOf (groupValuesBy RiskHolding.sector pd) (totalValueOf pd)

/-- `equity_pct = asset_class_percentages.get('Equity', 0)` (line 284). -/
def equity_pct (pd : List RiskHolding) : ℚ :=
  lookupD "Equity" (asset_class_percentages pd) 0

/-- `max(sector_percentages.values()) if sector_percentages else 0`
(line 305); Python `max` keeps the earliest of equal values. -/
def pyMaxVal : List (String × ℚ) → ℚ
  | [] => 0
  | kv :: rest => rest.foldl (fun acc kv2 => if kv2.2 > acc then kv2.2 else acc) kv.2

/-- A `risks` entry stripped to its discriminating fields; the formatted
`description`/`recommendation` display strings of the source are omitted. -/
structure RiskEntry where
  rtype : String
  level : String
  severity : String
  icon : String
deriving DecidableEq

/-- Lines 286-293. -/
def assetConcentrationHigh : RiskEntry := ⟨"Asset Concentration", "High", "warning", "⚠️"⟩

/-- Lines 295-302. -/
def assetAllocationGood : RiskEntry := ⟨"Asset Allocation", "Good", "info", "✅"⟩

/-- Lines 309-316. -/
def sectorConcentrationHigh : RiskEntry := ⟨"Sector Concentration", "High", "warning", "🚨"⟩

/-- Lines 318-325. -/
def sectorDiversificationGood : RiskEntry := ⟨"Sector Diversification", "Good", "success", "🎯"⟩

/-- Lines 328-335. -/
def currencyRiskLow : RiskEntry := ⟨"Currency Risk", "Low", "info", "💱"⟩

/-- The `risks` list assembled by lines 281-335: one asset-concentration
entry, one sector-concentration entry, then the constant currency entry. -/
def risk_entries (pd : List RiskHolding) : List RiskEntry :=
  (if equity_pct pd > 75 then [assetConcentrationHigh] else [assetAllocationGood])
    ++ (if pyMaxVal (sector_percentages pd) > 50 then [sectorConcentrationHigh]
        else [sectorDiversificationGood])
    ++ [currencyRiskLow]

/-- The response body of `get_portfolio_risks` (lines 337-348). -/
structure RiskReport where
  total_portfolio_value : ℚ
  asset_allocation : List (String × ℚ)
  sector_allocation : List (String × ℚ)
  total_risks : ℕ
  high_risk_count : ℕ
  overall_risk_score : String
  risks : List RiskEntry
deriving DecidableEq

/-- `get_portfolio_risks` generalised over the holdings table (the body of
lines 256-348 with `portfolio_data` a parameter). -/
def get_portfolio_risks_for (pd : List RiskHolding) : RiskReport :=
  { total_portfolio_value := totalValueOf pd
    asset_allocation := asset_class_percentages pd
    sector_allocation := sector_percentages pd
    total_risks := ((risk_entries pd).filter (fun r => r.severity == "warning")).length
    high_risk_count := ((risk_entries pd).filter (fun r => r.level == "High")).length
    overall_risk_score :=
      if (risk_entries pd).any (fun r => r.level == "High") then "Moderate" else "Low"
    risks := risk_entries pd }

/-- The hard-coded `portfolio_data` table (lines 249-254). -/
def portfolio_data : List RiskHolding :=
  [⟨"GOLD1", 60842.70, "Commodity", "Precious Metals"⟩,
   ⟨"NATIONALUM", 49938.35, "Equity", "Mining"⟩,
   ⟨"OIL", 61925.13, "Equity", "Oil"⟩,
   ⟨"MOTILAL", 61464.05, "Equity", "Large and Mid Cap Fund"⟩]

/-- The `/api/portfolio/risks` endpoint `get_portfolio_risks`
(lines 244-348): the generalised body applied to the fixed table. -/
def get_portfolio_risks : RiskReport :=
  get_portfolio_risks_for portfolio_data

/-! ## simple_api_server.py: hedge analysis -/

/-- One entry of `historical_data` (lines 610-616); the `month` label and
`date` string are produced by a date formatter the embedding takes as a
parameter, collapsed here into the single `date` field. -/
structure HedgeHistEntry where
  date : String
  normal_value : ℚ
  shock_5_value : ℚ
  shock_10_value : ℚ
deriving DecidableEq

/-- The response body of `get_hedge_analysis` (lines 645-666), numeric
parts only. -/
structure HedgeAnalysis where
  current_value_rounded : ℚ
  shock_5_value : ℚ
  shock_5_impact : ℚ
  shock_10_value : ℚ
  shock_10_impact : ℚ
  historical_data : List HedgeHistEntry
deriving DecidableEq

/-- The 12-month simulation loop of `get_hedge_analysis` (lines 593-616),
parametrised over the date type `α`, Python's string hash `pyhash`,
`strOfDate` (the `str(month_date)` fed to `hash`), the display formatter
`fmtDate` and the `timedelta` subtraction `subDays`.  `Int.emod` matches
Python `%`, which is non-negative for a positive modulus. -/
def hedge_historical {α : Type} (pyhash : String → ℤ) (strOfDate fmtDate : α → String)
    (subDays : α → ℕ → α) (base_date : α) (current_value : ℚ) : List HedgeHistEntry :=
  (List.range 12).map (fun j =>
    let i : ℕ := 12 - j
    let month_date := subDays base_date (i * 30)
    let growth_factor : ℚ := 1 + ((12 - i : ℕ) : ℚ) * 0.02
    let historical_value := current_value / growth_factor
    let volatility : ℚ := ((pyhash (strOfDate month_date) % 100 - 50 : ℤ) : ℚ) / 1000
    let hv := historical_value * (1 + volatility)
    { date := fmtDate month_date
      normal_value := pyRound2 hv
      shock_5_value := pyRound2 (hv * 0.95)
      shock_10_value := pyRound2 (hv * 0.90) })

/-- `get_hedge_analysis` (lines 568-666) from the already-selected
`current_value` on: the shock scenario arithmetic of lines 587-591 and the
simulated history, with the response's two-decimal rounding applied. -/
def get_hedge_analysis {α : Type} (pyhash : String → ℤ) (strOfDate fmtDate : α → String)
    (subDays : α → ℕ → α) (base_date : α) (current_value : ℚ) : HedgeAnalysis :=
  { current_value_rounded := pyRound2 current_value
    shock_5_value := pyRound2 (current_value * 0.95)
    shock_5_impact := pyRound2 (current_value * 0.95 - current_value)
    shock_10_value := pyRound2 (current_value * 0.90)
    shock_10_impact := pyRound2 (current_value * 0.90 - current_value)
    historical_data := hedge_historical pyhash strOfDate fmtDate subDays base_date current_value }

/-! ## Concrete inputs used by witness theorems -/

def wStock : String → PriceQuote := fun _ => PriceQuote.price 60

def wNav : String → Option ℚ := fun _ => none

def wHolding : Holding := ⟨"NATIONALUM", 10, 50, 500, 450, "Equity", "Mining"⟩

def scenarioStock : String → PriceQuote := fun _ => PriceQuote.unavailable

def scenarioNav : String → Option ℚ := fun _ => none

/-- The spec's fallback scenario holding
`{quantity:10, invested:1000, current_value:1100}`. -/
def scenarioHolding : Holding := ⟨"GOLD1", 10, 100, 1000, 1100, "Equity", "Precious Metals"⟩

/-- A holding with `invested = 0` whose quote data triggers the fallback. -/
def wZeroHolding : Holding := ⟨"X", 1, 0, 0, 5, "Other", "S"⟩

def wResp401 : UpstoxResponse := ⟨401, true, true, [("NSE_EQ|INE139A01034", some 60)]⟩

def wStockTok : String → PriceQuote := fun _ => PriceQuote.tokenExpired

def pd80 : List RiskHolding :=
  [⟨"E1", 80, "Equity", "S1"⟩, ⟨"C1", 20, "Commodity", "S2"⟩]

def wHashA : String → ℤ := fun _ => 37

def wHashB : String → ℤ := fun _ => 37

def wFmt : ℕ → String := fun _ => "2024-01-01"

def wSub : ℕ → ℕ → ℕ := fun b n => b + n

/-! ## Theorems: P&L aggregator -/

/-- Every emitted line, live or fallback, satisfies
`pl_amount = current_value - invested`. -/
lemma processHolding_pl_amount (sp : String → PriceQuote) (mf : String → Option ℚ)
    (h : Holding) :
    (processHolding sp mf h).pl_amount
      = (processHolding sp mf h).current_value - (processHolding sp mf h).invested := by
  unfold processHolding fallbackLine
  cases hq : resolveQuote sp mf h <;> simp
  split <;> simp

/-- Over lines with `pl_amount = current_value - invested`, the sums agree. -/
lemma sum_pl_lines (ls : List PLLine)
    (hl : ∀ l ∈ ls, l.pl_amount = l.current_value - l.invested) :
    (ls.map PLLine.current_value).sum - (ls.map PLLine.invested).sum
      = (ls.map PLLine.pl_amount).sum := by
  induction ls with
  | nil => simp
  | cons x t ih =>
    simp only [List.map_cons, List.sum_cons]
    rw [hl x (by simp)]
    have ht := ih (fun l hm => hl l (List.mem_cons_of_mem _ hm))
    linarith

/-- C1: the aggregate `total_pl` equals the sum of the per-line
`pl_amount` values, for every holdings list and every price outcome. -/
theorem C1_total_pl_eq_sum_of_line_pl (sp : String → PriceQuote) (mf : String → Option ℚ)
    (holdings : List Holding) :
    (calculate_portfolio_pl sp mf holdings).total_pl
      = ((calculate_portfolio_pl sp mf holdings).details.map PLLine.pl_amount).sum := by
  simp only [calculate_portfolio_pl]
  exact sum_pl_lines _ (by
    intro l hm
    obtain ⟨h0, _, rfl⟩ := List.mem_map.1 hm
    exact processHolding_pl_amount sp mf h0)

/-- C2: a strictly positive numeric quote prices the line live. -/
theorem C2_live_quote_prices_line (sp : String → PriceQuote) (mf : String → Option ℚ)
    (h : Holding) (p : ℚ) (hq : resolveQuote sp mf h = PriceQuote.price p) (hp : 0 < p) :
    (processHolding sp mf h).current_value = h.quantity * p
      ∧ (processHolding sp mf h).invested = h.invested
      ∧ (processHolding sp mf h).pl_amount
          = (processHolding sp mf h).current_value - (processHolding sp mf h).invested
      ∧ (processHolding sp mf h).current_price = some p := by
  unfold processHolding
  rw [hq]
  simp [if_pos hp]

/-- C2 witness at a concrete equity holding quoted live at 60. -/
theorem C2_witness :
    (processHolding wStock wNav wHolding).current_value = wHolding.quantity * 60
      ∧ (processHolding wStock wNav wHolding).invested = wHolding.invested
      ∧ (processHolding wStock wNav wHolding).pl_amount
          = (processHolding wStock wNav wHolding).current_value
            - (processHolding wStock wNav wHolding).invested
      ∧ (processHolding wStock wNav wHolding).current_price = some 60 :=
  C2_live_quote_prices_line wStock wNav wHolding 60 (by decide) (by norm_num)

/-- C3: a `TokenExpired`, `Unavailable` or non-positive quote takes the
stale fallback branch, and on the spec's scenario the fallback P&L is 100. -/
theorem C3_fallback_on_failed_quote :
    (∀ (sp : String → PriceQuote) (mf : String → Option ℚ) (h : Holding),
        (resolveQuote sp mf h = PriceQuote.tokenExpired
          ∨ resolveQuote sp mf h = PriceQuote.unavailable
          ∨ ∃ p, resolveQuote sp mf h = PriceQuote.price p ∧ p ≤ 0) →
        processHolding sp mf h = fallbackLine h)
      ∧ (processHolding scenarioStock scenarioNav scenarioHolding).pl_amount = 100
      ∧ (processHolding scenarioStock scenarioNav scenarioHolding).current_price = none := by
  have hgen : ∀ (sp : String → PriceQuote) (mf : String → Option ℚ) (h : Holding),
      (resolveQuote sp mf h = PriceQuote.tokenExpired
        ∨ resolveQuote sp mf h = PriceQuote.unavailable
        ∨ ∃ p, resolveQuote sp mf h = PriceQuote.price p ∧ p ≤ 0) →
      processHolding sp mf h = fallbackLine h := by
    intro sp mf h hq
    unfold processHolding
    rcases hq with hq | hq | ⟨p, hq, hp⟩
    · rw [hq]
    · rw [hq]
    · rw [hq]
      simp
      exact fun hc => absurd hp (not_le.2 hc)
  have hs := hgen scenarioStock scenarioNav scenarioHolding (Or.inr (Or.inl (by decide)))
  refine ⟨hgen, ?_, ?_⟩
  · rw [hs]
    show ((1100 : ℚ) - 1000 = 100)
    norm_num
  · rw [hs]
    rfl

/-- C3 witness: the general fallback statement applied at the scenario. -/
theorem C3_witness :
    processHolding scenarioStock scenarioNav scenarioHolding = fallbackLine scenarioHolding :=
  C3_fallback_on_failed_quote.1 scenarioStock scenarioNav scenarioHolding
    (Or.inr (Or.inl (by decide)))

/-- C4: the zero-invested guard makes each line's percentage 0, and the
zero-total guard makes the portfolio percentage 0. -/
theorem C4_zero_invested_guard :
    (∀ (sp : String → PriceQuote) (mf : String → Option ℚ) (h : Holding),
        h.invested = 0 → (processHolding sp mf h).pl_percentage = 0)
      ∧ (∀ (sp : String → PriceQuote) (mf : String → Option ℚ) (hs : List Holding),
          (calculate_portfolio_pl sp mf hs).total_invested = 0 →
          (calculate_portfolio_pl sp mf hs).total_pl_percentage = 0) := by
  constructor
  · intro sp mf h h0
    unfold processHolding fallbackLine
    cases hq : resolveQuote sp mf h <;> simp [h0]
    split <;> simp [h0]
  · intro sp mf hs h0
    simp only [calculate_portfolio_pl] at h0 ⊢
    rw [if_neg]
    rw [h0]
    exact lt_irrefl 0

/-- C4 witness: a zero-invested line and an empty portfolio. -/
theorem C4_witness :
    (processHolding wStock wNav wZeroHolding).pl_percentage = 0
      ∧ (calculate_portfolio_pl wStock wNav []).total_pl_percentage = 0 :=
  ⟨C4_zero_invested_guard.1 wStock wNav wZeroHolding rfl,
   C4_zero_invested_guard.2 wStock wNav [] rfl⟩

/-- C5: HTTP 401 yields the `TOKEN_EXPIRED` marker, and the aggregator
treats a `TokenExpired` quote exactly like an `Unavailable` one. -/
theorem C5_token_expired_like_unavailable :
    (∀ resp : UpstoxResponse, resp.status_code = 401 →
        get_upstox_stock_price resp = PriceQuote.tokenExpired)
      ∧ (∀ (sp1 sp2 : String → PriceQuote) (mf : String → Option ℚ) (h : Holding),
          resolveQuote sp1 mf h = PriceQuote.tokenExpired →
          resolveQuote sp2 mf h = PriceQuote.unavailable →
          processHolding sp1 mf h = processHolding sp2 mf h) := by
  constructor
  · intro resp h401
    unfold get_upstox_stock_price
    have hc : ¬ (resp.status_code = 200 ∧ resp.status_success = true ∧ resp.has_data = true) := by
      intro hand
      rw [h401] at hand
      exact absurd hand.1 (by norm_num)
    rw [if_neg hc, h401]
    rfl
  · intro sp1 sp2 mf h h1 h2
    unfold processHolding
    rw [h1, h2]

/-- C5 witness: a concrete 401 response, and a token-expired versus
unavailable quote on the same equity holding. -/
theorem C5_witness :
    get_upstox_stock_price wResp401 = PriceQuote.tokenExpired
      ∧ processHolding wStockTok wNav wHolding = processHolding scenarioStock wNav wHolding :=
  ⟨C5_token_expired_like_unavailable.1 wResp401 rfl,
   C5_token_expired_like_unavailable.2 wStockTok scenarioStock wNav wHolding
     (by decide) (by decide)⟩

/-! ## Theorems: sentiment heuristic -/

/-- `roundHalfEven` is the identity on integers. -/
lemma roundHalfEven_intCast (n : ℤ) : roundHalfEven (n : ℚ) = n := by
  unfold roundHalfEven
  rw [Int.floor_intCast]
  rw [if_pos]
  norm_num

/-- Four-decimal rounding fixes any value that is an integer number of
ten-thousandths. -/
lemma pyRound4_eq_self (x : ℚ) (n : ℤ) (hx : x * 10000 = (n : ℚ)) : pyRound4 x = x := by
  unfold pyRound4
  rw [hx, roundHalfEven_intCast]
  rw [← hx]
  ring

/-- Summing a constant over a list multiplies it by the length. -/
lemma sum_map_const_rat {α : Type} (c : ℚ) (l : List α) :
    (l.map (fun _ => c)).sum = l.length * c := by
  induction l with
  | nil => simp
  | cons x t ih =>
    simp only [List.map_cons, List.sum_cons, List.length_cons, ih]
    push_cast
    ring

/-- The context boost is 0.05 per matching context key. -/
lemma context_boost_shape (tl : String) : ∃ d : ℕ, context_boost_of tl = d * 0.05 :=
  ⟨_, sum_map_const_rat 0.05 _⟩

/-- The pre-bonus positive score is a natural multiple of 1/20. -/
lemma base_pos_shape (tl : String) : ∃ m : ℕ, base_positive_score tl = m / 20 := by
  obtain ⟨d, hd⟩ := context_boost_shape tl
  refine ⟨6 * countHits strong_positive tl + 4 * countHits positive tl
    + 2 * countHits moderate_positive tl + d, ?_⟩
  unfold base_positive_score
  rw [hd]
  push_cast
  ring

/-- The full positive score (bonus included) is a natural multiple of 1/20. -/
lemma pos_total_shape (text : String) : ∃ m : ℕ, positive_score_of text = m / 20 := by
  obtain ⟨m, hm⟩ := base_pos_shape (pyLower text)
  unfold positive_score_of
  split_ifs
  · exact ⟨m + 4, by rw [hm]; push_cast; ring⟩
  · exact ⟨m, hm⟩

/-- The negative score is a natural multiple of 1/20. -/
lemma base_neg_shape (tl : String) : ∃ n : ℕ, base_negative_score tl = n / 20 := by
  refine ⟨6 * countHits strong_negative tl + 4 * countHits negative tl
    + 2 * countHits moderate_negative tl, ?_⟩
  unfold base_negative_score
  push_cast
  ring

/-- The positive/negative-branch raw confidence is an integer number of
two-hundredths. -/
lemma rc_shape_of_score (s : ℚ) (m : ℕ) (hs : s = m / 20) :
    ∃ k : ℤ, (0.75 + min (s * 0.1) 0.2) * 200 = (k : ℚ) := by
  rcases le_total (s * 0.1) 0.2 with hle | hle
  · refine ⟨150 + m, ?_⟩
    rw [min_eq_left hle, hs]
    push_cast
    ring
  · refine ⟨190, ?_⟩
    rw [min_eq_right hle]
    norm_num

/-- Probabilities of the positive branch sum to 1 after rounding. -/
lemma mkPositive_sum (rc : ℚ) (k : ℤ) (hk : rc * 200 = (k : ℚ)) :
    (mkPositive rc).score_positive + (mkPositive rc).score_negative
      + (mkPositive rc).score_neutral = 1 := by
  have h1 : pyRound4 rc = rc := pyRound4_eq_self rc (50 * k) (by push_cast; rw [← hk]; ring)
  have h2 : pyRound4 ((1 - rc) * 0.3) = (1 - rc) * 0.3 :=
    pyRound4_eq_self _ (3000 - 15 * k) (by push_cast; rw [← hk]; ring)
  have h3 : pyRound4 ((1 - rc) * 0.7) = (1 - rc) * 0.7 :=
    pyRound4_eq_self _ (7000 - 35 * k) (by push_cast; rw [← hk]; ring)
  simp only [mkPositive, h1, h2, h3]
  ring

/-- Probabilities of the negative branch sum to 1 after rounding. -/
lemma mkNegative_sum (rc : ℚ) (k : ℤ) (hk : rc * 200 = (k : ℚ)) :
    (mkNegative rc).score_positive + (mkNegative rc).score_negative
      + (mkNegative rc).score_neutral = 1 := by
  have h1 : pyRound4 rc = rc := pyRound4_eq_self rc (50 * k) (by push_cast; rw [← hk]; ring)
  have h2 : pyRound4 ((1 - rc) * 0.3) = (1 - rc) * 0.3 :=
    pyRound4_eq_self _ (3000 - 15 * k) (by push_cast; rw [← hk]; ring)
  have h3 : pyRound4 ((1 - rc) * 0.7) = (1 - rc) * 0.7 :=
    pyRound4_eq_self _ (7000 - 35 * k) (by push_cast; rw [← hk]; ring)
  simp only [mkNegative, h1, h2, h3]
  ring

/-- Probabilities of the neutral branch sum to 1 after rounding. -/
lemma mkNeutral_sum (rc : ℚ) (k : ℤ) (hk : rc * 20 = (k : ℚ)) :
    (mkNeutral rc).score_positive + (mkNeutral rc).score_negative
      + (mkNeutral rc).score_neutral = 1 := by
  have h1 : pyRound4 rc = rc := pyRound4_eq_self rc (500 * k) (by push_cast; rw [← hk]; ring)
  have h2 : pyRound4 ((1 - rc) * 0.5) = (1 - rc) * 0.5 :=
    pyRound4_eq_self _ (5000 - 250 * k) (by push_cast; rw [← hk]; ring)
  simp only [mkNeutral, h1, h2]
  ring

/-- C6: for every input text the three class probabilities returned by the
scorer sum to exactly 1. -/
theorem C6_probabilities_sum_to_one (text : String) :
    (analyze_with_finbert_simulation text).score_positive
      + (analyze_with_finbert_simulation text).score_negative
      + (analyze_with_finbert_simulation text).score_neutral = 1 := by
  obtain ⟨m, hm⟩ := pos_total_shape text
  obtain ⟨n, hn⟩ := base_neg_shape (pyLower text)
  obtain ⟨d, hd⟩ := context_boost_shape (pyLower text)
  unfold analyze_with_finbert_simulation
  split_ifs with h1 h2
  · obtain ⟨k, hk⟩ := rc_shape_of_score _ m hm
    exact mkPositive_sum _ k hk
  · obtain ⟨k, hk⟩ := rc_shape_of_score _ n hn
    exact mkNegative_sum _ k hk
  · have hk : (0.65 + context_boost_of (pyLower text)) * 20 = ((13 + d : ℤ) : ℚ) := by
      rw [hd]
      push_cast
      ring
    exact mkNeutral_sum _ (13 + d) hk

set_option maxRecDepth 40000

/-- C7: on the GOLD1 news text the scorer returns label `positive` with a
confidence inside the clamp interval [0.6, 0.95]. -/
theorem C7_gold1_positive_confidence :
    (analyze_with_finbert_simulation gold1_news).sentiment = "positive"
      ∧ (0.6 : ℚ) ≤ (analyze_with_finbert_simulation gold1_news).confidence
      ∧ (analyze_with_finbert_simulation gold1_news).confidence ≤ 0.95 := by
  have hb : pctBonus gold1_news = false := by decide
  have hsp : countHits strong_positive (pyLower gold1_news) = 0 := by decide
  have hp1 : countHits positive (pyLower gold1_news) = 1 := by decide
  have hmp : countHits moderate_positive (pyLower gold1_news) = 0 := by decide
  have hsn : countHits strong_negative (pyLower gold1_news) = 0 := by decide
  have hn1 : countHits negative (pyLower gold1_news) = 0 := by decide
  have hmn : countHits moderate_negative (pyLower gold1_news) = 1 := by decide
  have hflen : (financial_context.filter
      (fun kv => strContains (pyLower gold1_news) kv.1)).length = 2 := by decide
  have hcb : context_boost_of (pyLower gold1_news) = 0.1 := by
    unfold context_boost_of
    rw [sum_map_const_rat, hflen]
    norm_num
  have hps : positive_score_of gold1_news = 0.3 := by
    unfold positive_score_of
    rw [hb]
    simp only [Bool.false_eq_true, if_false]
    unfold base_positive_score
    rw [hsp, hp1, hmp, hcb]
    norm_num
  have hns : base_negative_score (pyLower gold1_news) = 0.1 := by
    unfold base_negative_score
    rw [hsn, hn1, hmn]
    norm_num
  unfold analyze_with_finbert_simulation
  rw [hps, hns, if_pos (by norm_num : (0.3 : ℚ) > 0.1)]
  have hrc : (0.75 : ℚ) + min ((0.3 : ℚ) * 0.1) 0.2 = 0.78 := by
    rw [min_eq_left (by norm_num)]
    norm_num
  rw [hrc]
  have hclamp : min (max (0.78 : ℚ) 0.6) 0.95 = 0.78 := by
    rw [max_eq_left (by norm_num), min_eq_left (by norm_num)]
  have hconf : (mkPositive 0.78).confidence = 0.78 := by
    simp only [mkPositive, hclamp]
    exact pyRound4_eq_self _ 7800 (by norm_num)
  refine ⟨rfl, ?_, ?_⟩ <;> rw [hconf] <;> norm_num

/-! ## Theorems: risk heuristics -/

/-- C8: the asset-concentration entry is High/warning exactly when the
equity share exceeds 75 percent, else the Good allocation entry is first. -/
theorem C8_equity_threshold (pd : List RiskHolding) :
    (75 < equity_pct pd → (risk_entries pd).head? = some assetConcentrationHigh)
      ∧ (equity_pct pd ≤ 75 → (risk_entries pd).head? = some assetAllocationGood) := by
  constructor
  · intro h
    unfold risk_entries
    rw [if_pos h]
    rfl
  · intro h
    unfold risk_entries
    rw [if_neg (not_lt.2 h)]
    rfl

/-- C8 witness: an 80 percent equity portfolio trips the warning and the
hard-coded table (74 percent equity) does not. -/
theorem C8_witness :
    (risk_entries pd80).head? = some assetConcentrationHigh
      ∧ (risk_entries portfolio_data).head? = some assetAllocationGood := by
  constructor
  · refine (C8_equity_threshold pd80).1 ?_
    simp only [equity_pct, asset_class_percentages, pctListOf, groupValuesBy, totalValueOf,
      upsertAdd, lookupD, pd80, List.foldl, List.map, List.sum_cons, List.sum_nil,
      String.reduceBEq, Bool.false_eq_true, if_false, if_true]
    norm_num
  · refine (C8_equity_threshold portfolio_data).2 ?_
    simp only [equity_pct, asset_class_percentages, pctListOf, groupValuesBy, totalValueOf,
      upsertAdd, lookupD, portfolio_data, List.foldl, List.map, List.sum_cons, List.sum_nil,
      String.reduceBEq, Bool.false_eq_true, if_false, if_true]
    norm_num

/-- The hard-coded table's equity share: 173327.53 / 234170.23 of the
total, as a percentage. -/
lemma equity_pct_portfolio_data :
    equity_pct portfolio_data = 1733275300 / 23417023 := by
  simp only [equity_pct, asset_class_percentages, pctListOf, groupValuesBy, totalValueOf,
    upsertAdd, lookupD, portfolio_data, List.foldl, List.map, List.sum_cons, List.sum_nil,
    String.reduceBEq, Bool.false_eq_true, if_false, if_true]
  norm_num

/-- The hard-coded table's largest sector share (the OIL row). -/
lemma max_sector_portfolio_data :
    pyMaxVal (sector_percentages portfolio_data) = 619251300 / 23417023 := by
  simp only [pyMaxVal, sector_percentages, pctListOf, groupValuesBy, totalValueOf,
    upsertAdd, lookupD, portfolio_data, List.foldl, List.map, List.sum_cons, List.sum_nil,
    String.reduceBEq, Bool.false_eq_true, if_false, if_true]
  norm_num

/-- C10: the risks endpoint is a constant function of the hard-coded
table: equity share is between 73 and 75 percent, the top sector is under
50 percent, so both Good entries are emitted, no warning or High risk
exists, and the overall score is Low. -/
theorem C10_risks_endpoint_constant_low :
    get_portfolio_risks.risks
        = [assetAllocationGood, sectorDiversificationGood, currencyRiskLow]
      ∧ get_portfolio_risks.total_risks = 0
      ∧ get_portfolio_risks.high_risk_count = 0
      ∧ get_portfolio_risks.overall_risk_score = "Low"
      ∧ 73 < equity_pct portfolio_data ∧ equity_pct portfolio_data < 75
      ∧ pyMaxVal (sector_percentages portfolio_data) < 50 := by
  have hrisks : risk_entries portfolio_data
      = [assetAllocationGood, sectorDiversificationGood, currencyRiskLow] := by
    unfold risk_entries
    rw [if_neg (by rw [equity_pct_portfolio_data]; norm_num),
      if_neg (by rw [max_sector_portfolio_data]; norm_num)]
    rfl
  refine ⟨?_, ?_, ?_, ?_, ?_, ?_, ?_⟩
  · simp only [get_portfolio_risks, get_portfolio_risks_for]
    exact hrisks
  · simp only [get_portfolio_risks, get_portfolio_risks_for]
    rw [hrisks]
    rfl
  · simp only [get_portfolio_risks, get_portfolio_risks_for]
    rw [hrisks]
    rfl
  · simp only [get_portfolio_risks, get_portfolio_risks_for]
    rw [hrisks]
    rfl
  · rw [equity_pct_portfolio_data]
    norm_num
  · rw [equity_pct_portfolio_data]
    norm_num
  · rw [max_sector_portfolio_data]
    norm_num

/-! ## Theorems: hedge analysis -/

/-- C9: the hedge endpoint's shock scenarios are the current value times
0.95 and 0.90, the simulated history has exactly 12 monthly entries, and
the whole response is a deterministic function of the hash of the date
strings, the base date and the current value. -/
theorem C9_hedge_shocks_deterministic {α : Type}
    (pyhash : String → ℤ) (strOfDate fmtDate : α → String) (subDays : α → ℕ → α)
    (base_date : α) (cv : ℚ) :
    (get_hedge_analysis pyhash strOfDate fmtDate subDays base_date cv).shock_5_value
        = pyRound2 (cv * 0.95)
      ∧ (get_hedge_analysis pyhash strOfDate fmtDate subDays base_date cv).shock_10_value
          = pyRound2 (cv * 0.90)
      ∧ (get_hedge_analysis pyhash strOfDate fmtDate subDays base_date cv).historical_data.length
          = 12
      ∧ ∀ pyhash2 : String → ℤ, (∀ s, pyhash s = pyhash2 s) →
          get_hedge_analysis pyhash strOfDate fmtDate subDays base_date cv
            = get_hedge_analysis pyhash2 strOfDate fmtDate subDays base_date cv := by
  refine ⟨rfl, rfl, ?_, ?_⟩
  · simp [get_hedge_analysis, hedge_historical]
  · intro pyhash2 hsame
    rw [funext hsame]

/-- C9 witness: two runs over the same current value and base date with
extensionally equal hash functions produce the same response. -/
theorem C9_witness :
    get_hedge_analysis wHashA wFmt wFmt wSub 0 234170.23
      = get_hedge_analysis wHashB wFmt wFmt wSub 0 234170.23 :=
  (C9_hedge_shocks_deterministic wHashA wFmt wFmt wSub 0 234170.23).2.2.2
    wHashB (fun _ => rfl)
